import Mathlib

/-!
Verification of the AgroStock credential and session authority (src/pk.py).

The authentication core of the repository is the class AgroStockAuth
(src/pk.py lines 71-102): a fixed three-entry user registry built in
the constructor, SHA-256 password hashing (hash_password), and the
login check login_user.  The dashboard gating (show_dashboard, lines
131-136, 279, 305) and the Streamlit session flow (login_page and main,
lines 330-409) are embedded below as pure functions and a step function
on an explicit application state.

Machine integers are modelled as Nat with explicit reduction modulo
2^32 where the SHA-256 computation wraps.  Strings are Lean strings;
Python str.encode() is modelled by UTF-8 encoding of the scalar values.
-/

namespace AgroStock

/-- Reduce to a 32-bit word (wrap-around arithmetic of SHA-256). -/
def w32 (x : Nat) : Nat := x % 4294967296

/-- Rotate a 32-bit word right by n bits. -/
def rotr (n x : Nat) : Nat := w32 ((x >>> n) ||| (x <<< (32 - n)))

/-- SHA-256 round constants (FIPS 180-4, first 32 bits of the fractional
parts of the cube roots of the first 64 primes). -/
def shaK : List Nat :=
  [1116352408, 1899447441, 3049323471, 3921009573,
   961987163, 1508970993, 2453635748, 2870763221,
   3624381080, 310598401, 607225278, 1426881987,
   1925078388, 2162078206, 2614888103, 3248222580,
   3835390401, 4022224774, 264347078, 604807628,
   770255983, 1249150122, 1555081692, 1996064986,
   2554220882, 2821834349, 2952996808, 3210313671,
   3336571891, 3584528711, 113926993, 338241895,
   666307205, 773529912, 1294757372, 1396182291,
   1695183700, 1986661051, 2177026350, 2456956037,
   2730485921, 2820302411, 3259730800, 3345764771,
   3516065817, 3600352804, 4094571909, 275423344,
   430227734, 506948616, 659060556, 883997877,
   958139571, 1322822218, 1537002063, 1747873779,
   1955562222, 2024104815, 2227730452, 2361852424,
   2428436474, 2756734187, 3204031479, 3329325298]

/-- SHA-256 initial hash value (FIPS 180-4). -/
def shaH0 : List Nat :=
  [1779033703, 3144134277, 1013904242, 2773480762,
   1359893119, 2600822924, 528734635, 1541459225]

/-- Working state of the SHA-256 compression function: the eight words a..h. -/
abbrev ShaState := Nat × Nat × Nat × Nat × Nat × Nat × Nat × Nat

/-- One SHA-256 compression round, consuming one (round constant, schedule word) pair. -/
def shaRound (st : ShaState) (kw : Nat × Nat) : ShaState :=
  match st, kw with
  | (a, b, c, d, e, f, g, h), (k, w) =>
    let s1 := (rotr 6 e) ^^^ (rotr 11 e) ^^^ (rotr 25 e)
    let ch := (e &&& f) ^^^ ((e ^^^ 0xffffffff) &&& g)
    let t1 := w32 (h + s1 + ch + k + w)
    let s0 := (rotr 2 a) ^^^ (rotr 13 a) ^^^ (rotr 22 a)
    let mj := (a &&& b) ^^^ (a &&& c) ^^^ (b &&& c)
    let t2 := w32 (s0 + mj)
    (w32 (t1 + t2), a, b, c, w32 (d + t1), e, f, g)

/-- Small sigma-0 of the SHA-256 message schedule. -/
def ssig0 (x : Nat) : Nat := (rotr 7 x) ^^^ (rotr 18 x) ^^^ (x >>> 3)

/-- Small sigma-1 of the SHA-256 message schedule. -/
def ssig1 (x : Nat) : Nat := (rotr 17 x) ^^^ (rotr 19 x) ^^^ (x >>> 10)

/-- Extend the block words by the given number of schedule words. -/
def extendSchedule : Nat → List Nat → List Nat
  | 0, w => w
  | n + 1, w =>
    let l := w.length
    let nw := w32 (w.getD (l - 16) 0 + ssig0 (w.getD (l - 15) 0) +
                   w.getD (l - 7) 0 + ssig1 (w.getD (l - 2) 0))
    extendSchedule n (w ++ [nw])

/-- Group bytes into 32-bit big-endian words (fuel-driven, fuel counts words). -/
def bytesToWords : Nat → List Nat → List Nat
  | 0, _ => []
  | n + 1, b0 :: b1 :: b2 :: b3 :: rest =>
    ((b0 <<< 24) ||| (b1 <<< 16) ||| (b2 <<< 8) ||| b3) :: bytesToWords n rest
  | _ + 1, _ => []

/-- Compress one 64-byte block into the running eight-word hash value. -/
def processBlock (h : List Nat) (blk : List Nat) : List Nat :=
  let ws := extendSchedule 48 (bytesToWords 16 blk)
  let st0 : ShaState :=
    (h.getD 0 0, h.getD 1 0, h.getD 2 0, h.getD 3 0,
     h.getD 4 0, h.getD 5 0, h.getD 6 0, h.getD 7 0)
  match (shaK.zip ws).foldl shaRound st0 with
  | (a, b, c, d, e, f, g, h8) =>
    [w32 (h.getD 0 0 + a), w32 (h.getD 1 0 + b), w32 (h.getD 2 0 + c),
     w32 (h.getD 3 0 + d), w32 (h.getD 4 0 + e), w32 (h.getD 5 0 + f),
     w32 (h.getD 6 0 + g), w32 (h.getD 7 0 + h8)]

/-- Big-endian 8-byte encoding of the 64-bit message length. -/
def be64 (n : Nat) : List Nat :=
  [(n >>> 56) % 256, (n >>> 48) % 256, (n >>> 40) % 256, (n >>> 32) % 256,
   (n >>> 24) % 256, (n >>> 16) % 256, (n >>> 8) % 256, n % 256]

/-- SHA-256 padding: append 0x80, zeros to 56 mod 64, and the bit length. -/
def padMessage (m : List Nat) : List Nat :=
  let l := m.length
  m ++ 0x80 :: List.replicate ((119 - l % 64) % 64) 0 ++ be64 (8 * l)

/-- Split a byte list into 64-byte blocks (fuel-driven; fuel at least the length). -/
def splitBlocks : Nat → List Nat → List (List Nat)
  | 0, _ => []
  | _ + 1, [] => []
  | n + 1, l => l.take 64 :: splitBlocks n (l.drop 64)

/-- The eight 32-bit words of the SHA-256 digest of a byte list. -/
def sha256Words (m : List Nat) : List Nat :=
  let pm := padMessage m
  (splitBlocks pm.length pm).foldl processBlock shaH0

/-- Lowercase hexadecimal digit. -/
def hexDigit (n : Nat) : Char := if n < 10 then Char.ofNat (48 + n) else Char.ofNat (87 + n)

/-- Eight lowercase hex characters of a 32-bit word. -/
def wordHex (w : Nat) : List Char :=
  [hexDigit ((w >>> 28) &&& 15), hexDigit ((w >>> 24) &&& 15), hexDigit ((w >>> 20) &&& 15),
   hexDigit ((w >>> 16) &&& 15), hexDigit ((w >>> 12) &&& 15), hexDigit ((w >>> 8) &&& 15),
   hexDigit ((w >>> 4) &&& 15), hexDigit (w &&& 15)]

/-- SHA-256 lowercase hex digest of a byte list (hashlib hexdigest). -/
def sha256Hex (m : List Nat) : String := String.mk ((sha256Words m).map wordHex).flatten

/-- UTF-8 encoding of one Unicode scalar value. -/
def utf8Char (c : Nat) : List Nat :=
  if c < 0x80 then [c]
  else if c < 0x800 then [0xc0 ||| (c >>> 6), 0x80 ||| (c &&& 0x3f)]
  else if c < 0x10000 then
    [0xe0 ||| (c >>> 12), 0x80 ||| ((c >>> 6) &&& 0x3f), 0x80 ||| (c &&& 0x3f)]
  else
    [0xf0 ||| (c >>> 18), 0x80 ||| ((c >>> 12) &&& 0x3f),
     0x80 ||| ((c >>> 6) &&& 0x3f), 0x80 ||| (c &&& 0x3f)]

/-- Python str.encode(): UTF-8 bytes of a string. -/
def strBytes (s : String) : List Nat := (s.data.map (fun c => utf8Char c.toNat)).flatten

/-- pk.py line 95-96: AgroStockAuth.hash_password — SHA-256 hex digest of
the UTF-8 encoded password. -/
def hash_password (password : String) : String := sha256Hex (strBytes password)

example : hash_password "admin123" =
    "240be518fabd2724ddb6f04eeb1da5967448d7e831c08c8fa822809f74c720a9" := by decide

/-- One entry of the users dict built by the AgroStockAuth constructor
(pk.py lines 74-93): stored digest, role string, email, farm name. -/
structure UserRecord where
  password_hash : String
  role : String
  email : String
  farm_name : String
  deriving DecidableEq

/-- The fixed three-entry registry built by AgroStockAuth.__init__
(pk.py lines 72-93); the stored verifiers are computed there, once, by
hash_password on the plaintext passwords. -/
def initUsers : List (String × UserRecord) :=
  [("admin", ⟨hash_password "admin123", "admin",
      "admin@agrostock.com", "AgroStock HQ"⟩),
   ("farmer", ⟨hash_password "farmer123", "farmer",
      "farmer@greenfarm.com", "Green Valley Farm"⟩),
   ("vet", ⟨hash_password "vet123", "veterinarian",
      "vet@animalcare.com", "Animal Care Clinic"⟩)]

/-- The AgroStockAuth object; its only attribute is the users dict. -/
structure AgroStockAuth where
  users : List (String × UserRecord)
  deriving DecidableEq

/-- The object produced by AgroStockAuth() (pk.py lines 72-93). -/
def mkAuth : AgroStockAuth := ⟨initUsers⟩

/-- Return type of login_user: the 4-tuple (success, username, role, farm_name);
the last three components are Optional because the failure branch returns None. -/
abbrev LoginResult := Bool × Option String × Option String × Option String

/-- pk.py lines 98-102: AgroStockAuth.login_user.  Looks the username up in
the users dict; when present and the stored digest equals the digest of the
supplied password, returns (True, username, role, farm_name), otherwise
(False, None, None, None). -/
def login_user (auth : AgroStockAuth) (username password : String) : LoginResult :=
  match auth.users.lookup username with
  | some ud =>
    if ud.password_hash == hash_password password then
      (true, some username, some ud.role, some ud.farm_name)
    else (false, none, none, none)
  | none => (false, none, none, none)

/-- The login_user method call as a state transformer on the object: the
body (pk.py lines 98-102) only reads self.users and assigns no attribute,
so the translated call returns the result tuple together with the object,
unchanged. -/
def login_user_call (auth : AgroStockAuth) (username password : String) :
    LoginResult × AgroStockAuth :=
  (login_user auth username password, auth)

/-- The role enumeration of the data model. -/
inductive Role
  | admin
  | farmer
  | veterinarian
  deriving DecidableEq

/-- The role string the code stores for each role (pk.py lines 77, 83, 89). -/
def Role.str : Role → String
  | .admin => "admin"
  | .farmer => "farmer"
  | .veterinarian => "veterinarian"

/-- The dashboard view sections (the tabs created by show_dashboard). -/
inductive ViewSection
  | overview
  | health
  | vaccination
  | feed
  | financial
  | adminPanel
  deriving DecidableEq

/-- pk.py lines 131-136: the tab list show_dashboard creates for a role
string: six tabs for admin, four for veterinarian, five for the else
branch (farmer). -/
def tabsFor (user_role : String) : List ViewSection :=
  if user_role == "admin" then
    [.overview, .health, .vaccination, .feed, .financial, .adminPanel]
  else if user_role == "veterinarian" then
    [.overview, .health, .vaccination, .feed]
  else
    [.overview, .health, .vaccination, .feed, .financial]

/-- The capability matrix: the view sections unlocked for a role. -/
def capabilities_for (r : Role) : List ViewSection := tabsFor r.str

/-- pk.py line 279: the financial tab body renders only for farmer and admin. -/
def rendersFinancial (user_role : String) : Bool :=
  (user_role == "farmer" || user_role == "admin") && decide ((tabsFor user_role).length > 4)

/-- pk.py line 305: the admin-panel tab body renders only for admin. -/
def rendersAdminPanel (user_role : String) : Bool :=
  (user_role == "admin") && decide ((tabsFor user_role).length > 5)

/-- The identity fields stored into st.session_state on a successful login
(pk.py lines 350-353); the values are the components of the login_user tuple. -/
structure Session where
  username : Option String
  role : Option String
  farm_name : Option String
  deriving DecidableEq

/-- Login status of the process: st.session_state.logged_in together with
the stored identity fields. -/
inductive AppState
  | loggedOut
  | loggedIn (s : Session)
  deriving DecidableEq

/-- One user interaction driving a rerun of main: a login-button click with
the current contents of the two text fields, a logout-button click, or any
other rerun. -/
inductive UIEvent
  | loginClick (username password : String)
  | logoutClick
  | idle
  deriving DecidableEq

/-- pk.py lines 382-409 with 330-369: the state transition of one rerun of
main.  When logged out, main renders login_page and returns; only the login
button can change state, and only when both fields are nonempty and
login_user succeeds (lines 346-356).  When logged in, the login form is not
rendered at all, so a login click cannot occur; only the sidebar logout
button (lines 405-409) changes state, back to logged out. -/
def mainStep (auth : AgroStockAuth) (st : AppState) (ev : UIEvent) : AppState :=
  match st with
  | .loggedOut =>
    match ev with
    | .loginClick u p =>
      if u ≠ "" ∧ p ≠ "" then
        match login_user auth u p with
        | (true, u', r, f) => .loggedIn ⟨u', r, f⟩
        | (false, _, _, _) => .loggedOut
      else .loggedOut
    | _ => .loggedOut
  | .loggedIn s =>
    match ev with
    | .logoutClick => .loggedOut
    | _ => .loggedIn s

/-- The four session-state keys the logout handler deletes (pk.py line 406). -/
inductive SKey
  | logged_in
  | username
  | role
  | farm_name
  deriving DecidableEq

/-- st.session_state restricted to the four login keys; a field is none when
the key is absent from the dict. -/
structure SessionDict where
  logged_in : Option Bool
  username : Option String
  role : Option String
  farm_name : Option String
  deriving DecidableEq

/-- Python membership test: key in st.session_state. -/
def hasKey (st : SessionDict) : SKey → Bool
  | .logged_in => st.logged_in.isSome
  | .username => st.username.isSome
  | .role => st.role.isSome
  | .farm_name => st.farm_name.isSome

/-- Python deletion: del st.session_state[key] — raises KeyError when the
key is absent, modelled by the error branch. -/
def delKey (st : SessionDict) (k : SKey) : Except String SessionDict :=
  if hasKey st k then
    .ok (match k with
      | .logged_in => { st with logged_in := none }
      | .username => { st with username := none }
      | .role => { st with role := none }
      | .farm_name => { st with farm_name := none })
  else .error "KeyError"

/-- The loop body of the logout handler (pk.py lines 406-408): for each key,
delete it only when it is present. -/
def delLoop : SessionDict → List SKey → Except String SessionDict
  | st, [] => .ok st
  | st, k :: ks =>
    if hasKey st k then
      match delKey st k with
      | .ok st2 => delLoop st2 ks
      | .error e => .error e
    else delLoop st ks

/-- end_session: the logout handler of main (pk.py lines 405-409). -/
def end_session (st : SessionDict) : Except String SessionDict :=
  delLoop st [.logged_in, .username, .role, .farm_name]

example : login_user mkAuth "admin" "admin123" =
    (true, some "admin", some "admin", some "AgroStock HQ") := by decide

example : login_user mkAuth "admin" "wrongpass" = (false, none, none, none) := by decide

/-- Registry lookup misses every username other than the three keys. -/
theorem lookup_initUsers_none (u : String)
    (h1 : u ≠ "admin") (h2 : u ≠ "farmer") (h3 : u ≠ "vet") :
    (mkAuth.users).lookup u = none := by
  have e1 : (u == "admin") = false := beq_eq_false_iff_ne.mpr h1
  have e2 : (u == "farmer") = false := beq_eq_false_iff_ne.mpr h2
  have e3 : (u == "vet") = false := beq_eq_false_iff_ne.mpr h3
  simp [mkAuth, initUsers, List.lookup, e1, e2, e3]

/-- Unfolding login_user at the admin registry entry. -/
theorem login_user_admin_eq (p : String) :
    login_user mkAuth "admin" p =
      if hash_password "admin123" == hash_password p then
        (true, some "admin", some "admin", some "AgroStock HQ")
      else (false, none, none, none) := rfl

/-- Unfolding login_user at the farmer registry entry. -/
theorem login_user_farmer_eq (p : String) :
    login_user mkAuth "farmer" p =
      if hash_password "farmer123" == hash_password p then
        (true, some "farmer", some "farmer", some "Green Valley Farm")
      else (false, none, none, none) := rfl

/-- Unfolding login_user at the vet registry entry. -/
theorem login_user_vet_eq (p : String) :
    login_user mkAuth "vet" p =
      if hash_password "vet123" == hash_password p then
        (true, some "vet", some "veterinarian", some "Animal Care Clinic")
      else (false, none, none, none) := rfl

/-- C1: every principal of the fixed three-entry registry logs in
successfully with its correct password and the resulting tuple carries its
role: admin with admin123 yields role admin, farmer with farmer123 yields
role farmer, vet with vet123 yields role veterinarian. -/
theorem verify_all_principals :
    login_user mkAuth "admin" "admin123" =
      (true, some "admin", some "admin", some "AgroStock HQ") ∧
    login_user mkAuth "farmer" "farmer123" =
      (true, some "farmer", some "farmer", some "Green Valley Farm") ∧
    login_user mkAuth "vet" "vet123" =
      (true, some "vet", some "veterinarian", some "Animal Care Clinic") := by
  refine ⟨?_, ?_, ?_⟩ <;> decide

/-- C2: a registered username with any password whose digest differs from
the stored verifier fails, and any unregistered username fails with every
password; both failures return the same tuple (False, None, None, None),
so the two cases are observably identical. -/
theorem verify_failure_uniform (u p : String) :
    ((∃ ud, (mkAuth.users).lookup u = some ud ∧
        hash_password p ≠ ud.password_hash) ∨
      (mkAuth.users).lookup u = none) →
    login_user mkAuth u p = (false, none, none, none) := by
  intro h
  rcases h with ⟨ud, hlk, hne⟩ | hlk
  · have hb : (ud.password_hash == hash_password p) = false :=
      beq_eq_false_iff_ne.mpr (Ne.symm hne)
    simp [login_user, hlk, hb]
  · simp [login_user, hlk]

/-- Witness for C2: the registered username admin with the wrong password
wrongpass fails with the uniform failure tuple. -/
theorem verify_failure_uniform_witness :
    hash_password "wrongpass" ≠ hash_password "admin123" ∧
    login_user mkAuth "admin" "wrongpass" = (false, none, none, none) :=
  ⟨by decide,
   verify_failure_uniform "admin" "wrongpass"
     (Or.inl ⟨⟨hash_password "admin123", "admin",
        "admin@agrostock.com", "AgroStock HQ"⟩, rfl, by decide⟩)⟩

/-- C3: for a registered username, login_user succeeds exactly when the
SHA-256 hex digest of the supplied password equals the stored verifier of
that principal; the verifiers are the digests fixed by the constructor
(initUsers), computed there once from the plaintext passwords. -/
theorem verify_iff_digest (u p : String) (ud : UserRecord)
    (h : (mkAuth.users).lookup u = some ud) :
    (login_user mkAuth u p).1 = true ↔ hash_password p = ud.password_hash := by
  by_cases hb : ud.password_hash = hash_password p
  · simp [login_user, h, hb]
  · have hbf : (ud.password_hash == hash_password p) = false :=
      beq_eq_false_iff_ne.mpr hb
    simp [login_user, h, hbf, Ne.symm hb]

/-- Witness for C3 at the admin registry entry with its correct password. -/
theorem verify_iff_digest_witness :
    (mkAuth.users).lookup "admin" = some ⟨hash_password "admin123", "admin",
      "admin@agrostock.com", "AgroStock HQ"⟩ ∧
    ((login_user mkAuth "admin" "admin123").1 = true ↔
      hash_password "admin123" = hash_password "admin123") :=
  ⟨rfl, verify_iff_digest "admin" "admin123"
    ⟨hash_password "admin123", "admin", "admin@agrostock.com", "AgroStock HQ"⟩ rfl⟩

/-- C4: the capability matrix is total over the role enum — every role maps
to a non-empty section list — and maps each role to exactly the listed
sections: admin to all six, veterinarian to the four non-financial
non-admin sections, farmer to five (no admin panel). -/
theorem capabilities_exact :
    capabilities_for .admin =
      [.overview, .health, .vaccination, .feed, .financial, .adminPanel] ∧
    capabilities_for .veterinarian = [.overview, .health, .vaccination, .feed] ∧
    capabilities_for .farmer = [.overview, .health, .vaccination, .feed, .financial] ∧
    ∀ r : Role, capabilities_for r ≠ [] := by
  refine ⟨rfl, rfl, rfl, fun r => ?_⟩
  cases r <;> decide

/-- C5: the admin capability set contains the veterinarian and farmer
capability sets; the financial section belongs to farmer and admin but not
to the veterinarian, matching the tab gating of show_dashboard. -/
theorem admin_caps_superset :
    capabilities_for .veterinarian ⊆ capabilities_for .admin ∧
    capabilities_for .farmer ⊆ capabilities_for .admin ∧
    ViewSection.financial ∈ capabilities_for .admin ∧
    ViewSection.financial ∈ capabilities_for .farmer ∧
    ViewSection.financial ∉ capabilities_for .veterinarian ∧
    rendersFinancial "farmer" = true ∧
    rendersFinancial "admin" = true ∧
    rendersFinancial "veterinarian" = false ∧
    rendersAdminPanel "admin" = true := by
  decide

/-- C6: the session machine admits exactly the claimed transitions.  The
six equations determine mainStep on every state and event: from LoggedIn,
the logout click (end_session) moves to LoggedOut and every other rerun —
including a login click, since the login form is not rendered while logged
in — keeps exactly the same session, so verify is never applied to an
active session and no LoggedIn-to-LoggedIn transition with a fresh session
exists; from LoggedOut, the machine moves to LoggedIn precisely when the
event is a login click with both fields nonempty and login_user
succeeding, and stays LoggedOut otherwise. -/
theorem session_machine_transitions (auth : AgroStockAuth) (s : Session) (u p : String) :
    mainStep auth (.loggedIn s) .logoutClick = .loggedOut ∧
    mainStep auth (.loggedIn s) (.loginClick u p) = .loggedIn s ∧
    mainStep auth (.loggedIn s) .idle = .loggedIn s ∧
    mainStep auth .loggedOut .logoutClick = .loggedOut ∧
    mainStep auth .loggedOut .idle = .loggedOut ∧
    mainStep auth .loggedOut (.loginClick u p) =
      (if u ≠ "" ∧ p ≠ "" ∧ (login_user auth u p).1 = true then
        .loggedIn ⟨(login_user auth u p).2.1, (login_user auth u p).2.2.1,
          (login_user auth u p).2.2.2⟩
      else .loggedOut) := by
  refine ⟨rfl, rfl, rfl, rfl, rfl, ?_⟩
  rcases hq : login_user auth u p with ⟨b, x, y, z⟩
  by_cases hu : u = ""
  · simp [mainStep, hu]
  · by_cases hp : p = ""
    · simp [mainStep, hu, hp]
    · cases b <;> simp [mainStep, hu, hp, hq]

example :
    mainStep mkAuth .loggedOut (.loginClick "admin" "admin123") =
      .loggedIn ⟨some "admin", some "admin", some "AgroStock HQ"⟩ := by decide

example :
    mainStep mkAuth
      (.loggedIn ⟨some "admin", some "admin", some "AgroStock HQ"⟩) .logoutClick =
      .loggedOut := by decide

/-- C7: end_session never raises and is idempotent: on any session dict it
succeeds and clears all four keys, and running it again on the cleared
state succeeds and is a no-op — the membership guard skips the deletion of
every absent key instead of raising KeyError. -/
theorem end_session_idempotent (st : SessionDict) :
    end_session st = .ok ⟨none, none, none, none⟩ ∧
    end_session ⟨none, none, none, none⟩ = .ok ⟨none, none, none, none⟩ := by
  obtain ⟨a, b, c, d⟩ := st
  refine ⟨?_, rfl⟩
  cases a <;> cases b <;> cases c <;> cases d <;> rfl

/-- C8: login_user has no side effect on the Authority: the call returns
the object unchanged (the method body assigns no attribute), so any later
call on the returned object behaves exactly as a call on the original. -/
theorem login_user_no_side_effect (auth : AgroStockAuth) (u p u2 p2 : String) :
    (login_user_call auth u p).2 = auth ∧
    login_user_call (login_user_call auth u p).2 u2 p2 = login_user_call auth u2 p2 :=
  ⟨rfl, rfl⟩

/-- C9: login_user is total and returns one of exactly two shapes: on
success the 4-tuple (True, username, role, farm_name) where the username
is a registry key and the role is one of admin, farmer, veterinarian and
the farm name is that principal's registered one; on failure exactly
(False, None, None, None). -/
theorem login_result_shape (u p : String) :
    (∃ ud, (mkAuth.users).lookup u = some ud ∧
      login_user mkAuth u p = (true, some u, some ud.role, some ud.farm_name) ∧
      (ud.role = "admin" ∨ ud.role = "farmer" ∨ ud.role = "veterinarian")) ∨
    login_user mkAuth u p = (false, none, none, none) := by
  by_cases h1 : u = "admin"
  · subst h1
    by_cases hb : hash_password "admin123" = hash_password p
    · exact Or.inl ⟨⟨hash_password "admin123", "admin",
        "admin@agrostock.com", "AgroStock HQ"⟩, rfl,
        by rw [login_user_admin_eq, if_pos (beq_iff_eq.mpr hb)], Or.inl rfl⟩
    · exact Or.inr (by
        rw [login_user_admin_eq, if_neg]
        simp [hb])
  by_cases h2 : u = "farmer"
  · subst h2
    by_cases hb : hash_password "farmer123" = hash_password p
    · exact Or.inl ⟨⟨hash_password "farmer123", "farmer",
        "farmer@greenfarm.com", "Green Valley Farm"⟩, rfl,
        by rw [login_user_farmer_eq, if_pos (beq_iff_eq.mpr hb)], Or.inr (Or.inl rfl)⟩
    · exact Or.inr (by
        rw [login_user_farmer_eq, if_neg]
        simp [hb])
  by_cases h3 : u = "vet"
  · subst h3
    by_cases hb : hash_password "vet123" = hash_password p
    · exact Or.inl ⟨⟨hash_password "vet123", "veterinarian",
        "vet@animalcare.com", "Animal Care Clinic"⟩, rfl,
        by rw [login_user_vet_eq, if_pos (beq_iff_eq.mpr hb)], Or.inr (Or.inr rfl)⟩
    · exact Or.inr (by
        rw [login_user_vet_eq, if_neg]
        simp [hb])
  · exact Or.inr (by
      simp [login_user, lookup_initUsers_none u h1 h2 h3])

/-- C10: username lookup is exact and case-sensitive: every username that
is not byte-for-byte one of the registry keys admin, farmer, vet fails for
every password, including case variants of a registered name supplied with
that principal's correct password. -/
theorem login_unknown_username (u p : String)
    (h1 : u ≠ "admin") (h2 : u ≠ "farmer") (h3 : u ≠ "vet") :
    login_user mkAuth u p = (false, none, none, none) := by
  simp [login_user, lookup_initUsers_none u h1 h2 h3]

/-- Witness for C10: the case variant Admin with the correct admin password
still fails. -/
theorem login_unknown_username_witness :
    ("Admin" ≠ "admin" ∧ "Admin" ≠ "farmer" ∧ "Admin" ≠ "vet") ∧
    login_user mkAuth "Admin" "admin123" = (false, none, none, none) :=
  ⟨⟨by decide, by decide, by decide⟩,
   login_unknown_username "Admin" "admin123" (by decide) (by decide) (by decide)⟩

end AgroStock
